import Mathlib

/-!
# Verification of the odme_anomalies service core

Shallow embedding of the odme_anomalies repository: the threat-level scoring
engine (`services/threat_level.py`), the data model (`models/anomaly.py`,
`models/anomaly_attribute.py`), and the workflow endpoints (`ingest.py`,
`resolve.py`, `anomalies.py`).  The persistence engine is modelled, as the
specification prescribes, as a transactional relational store: a list of rows
threaded through the workflow functions.
-/

/-! ## Models of the Python primitives used by the scoring engine -/

/-- ASCII whitespace stripped by CPython `int(str)` conversion. -/
def isPyWs (c : Char) : Bool :=
  c = ' ' || c = '\t' || c = '\n' || c = '\r' || c = '\x0b' || c = '\x0c'

/-- Digit-run accumulator for `int(str)`: decimal digits, where a single
underscore may stand between two digits (CPython's numeric-literal rule). -/
def pyGo (acc : Nat) (l : List Char) : Option Nat :=
  match l with
  | [] => some acc
  | c :: cs =>
    if c.isDigit then pyGo (acc * 10 + (c.toNat - 48)) cs
    else if c = '_' then
      match cs with
      | [] => none
      | d :: cs2 => if d.isDigit then pyGo (acc * 10 + (d.toNat - 48)) cs2 else none
    else none

/-- Digit run: must be nonempty and must not start with an underscore. -/
def pyDigits (l : List Char) : Option Nat :=
  match l with
  | [] => none
  | c :: _ => if c.isDigit then pyGo 0 l else none

/-- Strip leading and trailing whitespace. -/
def pyStrip (l : List Char) : List Char :=
  ((l.dropWhile isPyWs).reverse.dropWhile isPyWs).reverse

/-- Model of CPython `int(s)` on ASCII decimal forms: optional whitespace,
optional single sign, then digits (underscores allowed between digits);
`none` models the `ValueError` raised on anything else.  (CPython also accepts
non-ASCII decimal digits and non-ASCII whitespace; the service's vocabulary
never uses them.) -/
def pyInt (s : String) : Option Int :=
  if (pyStrip s.toList).head? = some '+' then
    (pyDigits (pyStrip s.toList).tail).map (fun n => (n : Int))
  else if (pyStrip s.toList).head? = some '-' then
    (pyDigits (pyStrip s.toList).tail).map (fun n => -(n : Int))
  else (pyDigits (pyStrip s.toList)).map (fun n => (n : Int))

/-- Model of CPython `str.lower` on one character, exact on ASCII, Latin-1
and Latin Extended-A (the alphabets of this service's Czech vocabulary), plus
the Kelvin and Angstrom signs.  U+0130 and characters outside these ranges are
left unchanged; on every input the result agrees with CPython on whether it is
a key of the service's verbal adjustment table. -/
def pyCharLower (c : Char) : Char :=
  let n := c.toNat
  if 0x41 ≤ n ∧ n ≤ 0x5A then Char.ofNat (n + 32)
  else if 0xC0 ≤ n ∧ n ≤ 0xDE ∧ n ≠ 0xD7 then Char.ofNat (n + 32)
  else if (0x100 ≤ n ∧ n ≤ 0x136 ∧ n % 2 = 0 ∧ n ≠ 0x130)
       ∨ (0x139 ≤ n ∧ n ≤ 0x147 ∧ n % 2 = 1)
       ∨ (0x14A ≤ n ∧ n ≤ 0x176 ∧ n % 2 = 0)
       ∨ (0x179 ≤ n ∧ n ≤ 0x17D ∧ n % 2 = 1) then Char.ofNat (n + 1)
  else if n = 0x178 then Char.ofNat 0xFF
  else if n = 0x212A then 'k'
  else if n = 0x212B then Char.ofNat 0xE5
  else c

/-- Model of CPython `str.lower`. -/
def pyLower (s : String) : String := String.mk (s.toList.map pyCharLower)

/-- Decimal digit characters of a natural number, most significant first;
`fuel` bounds the recursion depth (any `fuel > n` suffices, see below). -/
def natDecCharsAux : Nat → Nat → List Char
  | 0, _ => []
  | fuel + 1, n =>
    if n < 10 then [Char.ofNat (48 + n)]
    else natDecCharsAux fuel (n / 10) ++ [Char.ofNat (48 + n % 10)]

/-- Decimal digit characters of a natural number, most significant first. -/
def natDecChars (n : Nat) : List Char := natDecCharsAux (n + 1) n

/-- The decimal string of an integer (what both Python `str(v)` and SQLite's
TEXT rendering of an integer produce). -/
def decStr (v : Int) : String :=
  if v < 0 then String.mk ('-' :: natDecChars v.natAbs) else String.mk (natDecChars v.natAbs)

/-! ## The scoring engine (`services/threat_level.py`) -/

/-- Input schema `AnomalyAttributeIn`: one key/value attribute pair. -/
structure AnomalyAttributeIn where
  key : String
  value : String
deriving DecidableEq, Repr

/-- `BASE_SCORES`: base threat level by anomaly category. -/
def BASE_SCORES (category : String) : Option Int :=
  if category = "Měňavec" then some 70
  else if category = "Elementál" then some 50
  else if category = "Přízrak" then some 30
  else none

/-- `WEIGHT_ADJUSTMENTS["agresivita_odhad"]`: verbal adjustment table. -/
def WEIGHT_agresivita_odhad (v : String) : Option Int :=
  if v = "nízká" then some (-10)
  else if v = "střední" then some 0
  else if v = "vysoká" then some 20
  else none

/-- One iteration of the attribute loop of `calculate_threat_level`:
`agresivita` adds `int(value) * 2` and silently skips on `ValueError`;
`agresivita_odhad` adds the verbal table entry for `value.lower()`, default 0;
other keys leave the score unchanged. -/
def applyAttr (score : Int) (attr : AnomalyAttributeIn) : Int :=
  if attr.key = "agresivita" then
    match pyInt attr.value with
    | some v => score + v * 2
    | none => score
  else if attr.key = "agresivita_odhad" then
    score + (WEIGHT_agresivita_odhad (pyLower attr.value)).getD 0
  else score

/-- `calculate_threat_level`: base score from `BASE_SCORES` (default 10),
fold the attribute adjustments in input order, clamp to [0, 100]. -/
def calculate_threat_level (category : String) (attributes : List AnomalyAttributeIn) : Int :=
  max 0 (min (attributes.foldl applyAttr ((BASE_SCORES category).getD 10)) 100)

example : pyInt "3" = some 3 := by decide
example : pyInt "-12" = some (-12) := by decide
example : pyInt " 7 " = some 7 := by decide
example : pyInt "1_0" = some 10 := by decide
example : pyInt "abc" = none := by decide
example : pyInt "" = none := by decide
example : pyInt "1_" = none := by decide
example : pyLower "VYSOKÁ" = "vysoká" := by decide
example : decStr (-37) = "-37" := by decide
example : decStr 100 = "100" := by decide
example : calculate_threat_level "Elementál"
    [⟨"agresivita", "3"⟩, ⟨"agresivita_odhad", "vysoká"⟩] = 76 := by decide
example : calculate_threat_level "Elementál"
    [⟨"puvod", "Slovansky"⟩, ⟨"entita", "Vodnik"⟩, ⟨"agresivita", "3"⟩,
     ⟨"agresivita_odhad", "vysoka"⟩] = 56 := by decide

/-! ## Data model (`models/anomaly.py`, `models/anomaly_attribute.py`)

The store is the spec's transactional relational abstraction: two row lists
threaded through the workflows.  Timestamps play no role in any property and
are carried as integers. -/

/-- Python-level failures a workflow can surface (uncaught by the endpoint's
`except SQLAlchemyError` handler). -/
inductive PyError where
  | nameError (name : String)
  | validationError (loc : String)
deriving DecidableEq, Repr

deriving instance DecidableEq for Except

/-- Row of the `anomalies` table. -/
structure Anomaly where
  id : String
  category : String
  location : String
  detected_at : Int
  threat_level : Int
  is_resolved : Bool
deriving DecidableEq, Repr

/-- Row of the `anomaly_attributes` table. -/
structure AnomalyAttributeRow where
  id : String
  anomaly_id : String
  key : String
  value : String
deriving DecidableEq, Repr

/-- The relational store: both tables, rows in insertion order. -/
structure Store where
  anomalies : List Anomaly
  anomaly_attributes : List AnomalyAttributeRow
deriving DecidableEq, Repr

/-- Names bound at module scope in `models/anomaly.py`: its import statements
are `import uuid` and `from uuid import UUID` plus the sqlalchemy/datetime
imports; the class statement binds `Anomaly`. -/
def anomalyModelGlobals : List String :=
  ["uuid", "UUID", "datetime", "timezone", "TYPE_CHECKING", "String", "Integer",
   "Boolean", "DateTime", "Mapped", "mapped_column", "relationship", "Base", "Anomaly"]

/-- The `Anomaly.id` column default `lambda: str(uuid4())`: the free name
`uuid4` is resolved against the module's globals when the lambda runs (at
flush); `fresh` stands for the uuid string the call would produce were the
name bound. -/
def anomalyIdDefault (fresh : String) : Except PyError String :=
  if anomalyModelGlobals.contains "uuid4" then .ok fresh else .error (.nameError "uuid4")

/-- The `AnomalyAttribute.id` column default `lambda: str(uuid4())`:
`models/anomaly_attribute.py` does `from uuid import uuid4`, so the default
evaluates to a fresh uuid string. -/
def anomalyAttributeIdDefault (fresh : String) : Except PyError String := .ok fresh

/-- `str(uuid4())` output shape: 36 characters, hyphens at indices 8, 13, 18
and 23, lower-case hex digits elsewhere. -/
def isHexDigitLower (c : Char) : Bool :=
  c.isDigit || (97 ≤ c.toNat && c.toNat ≤ 102)

/-- Recognizer for the 36-character `str(uuid4())` format. -/
def uuidFormat (s : String) : Bool :=
  s.length == 36 &&
  (List.range 36).all (fun i =>
    if i = 8 || i = 13 || i = 18 || i = 23 then s.toList.getD i 'x' == '-'
    else isHexDigitLower (s.toList.getD i 'x'))

/-! ## Ingest workflow (`api/v1/endpoints/ingest.py`) -/

/-- Request schema `AnomalyIn`. -/
structure AnomalyIn where
  category : String
  location : String
  detected_at : Int
  attributes : List AnomalyAttributeIn
deriving DecidableEq, Repr

/-- Response schema `AnomalyAttributeOut`: note its `id` field is declared
`int` while the stored attribute id is a uuid string. -/
structure AnomalyAttributeOut where
  key : String
  value : String
  id : Int
deriving DecidableEq, Repr

/-- Response schema `AnomalyOut`. -/
structure AnomalyOut where
  id : String
  category : String
  location : String
  detected_at : Int
  threat_level : Int
  is_resolved : Bool
  attributes : List AnomalyAttributeOut
deriving DecidableEq, Repr

/-- `crud/anomaly_reader.get_anomaly_with_attributes`: select the anomaly by
id with its attribute rows eagerly loaded (child rows in insertion order). -/
def get_anomaly_with_attributes (store : Store) (anomaly_id : String) :
    Option (Anomaly × List AnomalyAttributeRow) :=
  match store.anomalies.find? (fun a => a.id == anomaly_id) with
  | none => none
  | some a => some (a, store.anomaly_attributes.filter (fun r => r.anomaly_id == anomaly_id))

/-- Pydantic validation of one ORM attribute row against `AnomalyAttributeOut`:
lax coercion of the stored `str` id into the declared `int` field parses the
string as an integer and raises `ValidationError` when it is not one. -/
def validateAttributeOut (r : AnomalyAttributeRow) : Except PyError AnomalyAttributeOut :=
  match pyInt r.id with
  | some n => .ok ⟨r.key, r.value, n⟩
  | none => .error (.validationError "attributes.id")

/-- `ingest_anomaly`: compute the threat level, insert the anomaly row (the
`flush` fires the id column default) and one attribute row per input attribute
in submitted order, then read the record back and validate it into
`AnomalyOut`.  `fresh i` supplies the uuid string for the i-th generated id. -/
def ingest_anomaly (store : Store) (fresh : Nat → String) (payload : AnomalyIn) :
    Except PyError (Store × AnomalyOut) := do
  let threat_level := calculate_threat_level payload.category payload.attributes
  let newId ← anomalyIdDefault (fresh 0)
  let newAnomaly : Anomaly :=
    { id := newId, category := payload.category, location := payload.location,
      detected_at := payload.detected_at, threat_level := threat_level, is_resolved := false }
  let attrRows ← ((List.range payload.attributes.length).zip payload.attributes).mapM
      (fun p => (anomalyAttributeIdDefault (fresh (p.1 + 1))).map
        (fun rid => ({ id := rid, anomaly_id := newId, key := p.2.key, value := p.2.value }
          : AnomalyAttributeRow)))
  let store2 : Store :=
    { anomalies := store.anomalies ++ [newAnomaly],
      anomaly_attributes := store.anomaly_attributes ++ attrRows }
  match get_anomaly_with_attributes store2 newId with
  | none => .error (.validationError "AnomalyOut")
  | some (a, rows) => do
      let outAttrs ← rows.mapM validateAttributeOut
      .ok (store2,
        { id := a.id, category := a.category, location := a.location,
          detected_at := a.detected_at, threat_level := a.threat_level,
          is_resolved := a.is_resolved, attributes := outAttrs })

/-! ## Resolve workflow (`api/v1/endpoints/resolve.py`) -/

/-- Outcome of `resolve_anomaly`: the 404 branch, the 500 branch raised from
the `except SQLAlchemyError` handler, or a `ResponseMessage`. -/
inductive ResolveResult where
  | notFound
  | storageFailure
  | message (text : String)
deriving DecidableEq, Repr

/-- `session.get(Anomaly, key)` with the key rendered as the text the String
column compares against. -/
def sessionGetAnomaly (rows : List Anomaly) (key : String) : Option Anomaly :=
  rows.find? (fun a => a.id == key)

/-- An explicit `session.begin()` on a SQLAlchemy 2.0 session: it raises
`InvalidRequestError` — a `SQLAlchemyError` — when a transaction is already
begun on the session, as one is after any earlier ORM execution (autobegin). -/
def sessionBegin (inTransaction : Bool) : Except Unit Unit :=
  if inTransaction then .error () else .ok ()

/-- `resolve_anomaly`: the path parameter is declared `int`; the store's
TEXT-affinity primary key compares it as its decimal text.  Absent row: 404
before any transaction.  Already resolved: message returned before the `try`
block, no write.  Otherwise the endpoint enters `async with session.begin()`
— but the earlier `session.get` has autobegun a transaction, so the begin
raises `InvalidRequestError`, the `except SQLAlchemyError` handler answers
HTTP 500 "Database error occurred", and the write to `is_resolved` in the
block body is never reached. -/
def resolve_anomaly (rows : List Anomaly) (anomaly_id : Int) :
    List Anomaly × ResolveResult :=
  match sessionGetAnomaly rows (decStr anomaly_id) with
  | none => (rows, .notFound)
  | some a =>
    if a.is_resolved then (rows, .message "Anomaly already resolved")
    else
      match sessionBegin true with
      | .error _ => (rows, .storageFailure)
      | .ok _ =>
        (rows.map (fun r => if r.id == a.id then { r with is_resolved := true } else r),
         .message "Anomaly marked as resolved")

/-! ## List and summary workflows (`api/v1/endpoints/anomalies.py`) -/

/-- Query schema `AnomalyQueryParams`. -/
structure AnomalyQueryParams where
  category : Option String
  min_threat : Option Int
deriving DecidableEq, Repr

/-- Python truthiness of an `Optional[str]`: `None` and `""` are falsy. -/
def pyTruthyStr : Option String → Bool
  | none => false
  | some s => !(s == "")

/-- `list_anomalies`: the category clause is guarded by `if filters.category:`
(Python truthiness, so both `None` and `""` disable it); the threat clause is
guarded by `if filters.min_threat is not None:`. -/
def list_anomalies (rows : List Anomaly) (filters : AnomalyQueryParams) : List Anomaly :=
  let rows1 :=
    if pyTruthyStr filters.category then
      rows.filter (fun a => a.category == filters.category.getD "")
    else rows
  if filters.min_threat.isSome then
    rows1.filter (fun a => decide (filters.min_threat.getD 0 ≤ a.threat_level))
  else rows1

/-- Response schema `AnomalySummary`. -/
structure AnomalySummary where
  total_anomalies : Nat
  unresolved_anomalies : Nat
  most_common_category : Option String
  avg_threat_level : Option Rat
deriving DecidableEq, Repr

/-- Number of rows of a given category. -/
def countCategory (rows : List Anomaly) (c : String) : Nat :=
  (rows.filter (fun a => a.category == c)).length

/-- The `group_by category order_by count desc limit 1` scalar: no row on an
empty table, otherwise a category of maximal count (the store's tie order is
arbitrary; the model keeps the first maximal one). -/
def sqlMostCommonCategory (rows : List Anomaly) : Option String :=
  match (rows.map (fun a => a.category)).dedup with
  | [] => none
  | c :: cs => some (cs.foldl
      (fun best x => if countCategory rows best < countCategory rows x then x else best) c)

/-- The `avg(threat_level) where is_resolved == False` scalar: SQL `avg` of no
rows is NULL, otherwise the exact rational mean. -/
def sqlAvgThreatUnresolved (rows : List Anomaly) : Option Rat :=
  let unresolvedRows := rows.filter (fun a => !a.is_resolved)
  if unresolvedRows.isEmpty then none
  else some ((unresolvedRows.map (fun a => (a.threat_level : Rat))).sum / unresolvedRows.length)

/-- `anomaly_summary`: total count, unresolved count, most common category,
average threat level of unresolved rows.  (The endpoint's `or 0` on the two
counts is the identity: SQL `count` is never NULL.) -/
def anomaly_summary (rows : List Anomaly) : AnomalySummary :=
  { total_anomalies := rows.length,
    unresolved_anomalies := (rows.filter (fun a => !a.is_resolved)).length,
    most_common_category := sqlMostCommonCategory rows,
    avg_threat_level := sqlAvgThreatUnresolved rows }

example : uuidFormat "550e8400-e29b-41d4-a716-446655440000" = true := by decide
example : uuidFormat "789" = false := by decide
example : (resolve_anomaly [⟨"7", "c", "l", 0, 10, false⟩] 7).2 =
    .storageFailure := by decide
example : (resolve_anomaly [⟨"7", "c", "l", 0, 10, true⟩] 7).2 =
    .message "Anomaly already resolved" := by decide
example : anomaly_summary [] = ⟨0, 0, none, none⟩ := by decide

/-! ## Lemmas about the scoring engine -/

/-- The contribution of one attribute to the accumulated score. -/
def attrDelta (attr : AnomalyAttributeIn) : Int :=
  if attr.key = "agresivita" then
    match pyInt attr.value with
    | some v => v * 2
    | none => 0
  else if attr.key = "agresivita_odhad" then
    (WEIGHT_agresivita_odhad (pyLower attr.value)).getD 0
  else 0

theorem applyAttr_eq_add (s : Int) (a : AnomalyAttributeIn) :
    applyAttr s a = s + attrDelta a := by
  unfold applyAttr attrDelta
  by_cases h1 : a.key = "agresivita"
  · simp only [h1, if_true]
    cases pyInt a.value <;> simp
  · by_cases h2 : a.key = "agresivita_odhad" <;> simp [h1, h2]

theorem foldl_applyAttr (s : Int) (l : List AnomalyAttributeIn) :
    l.foldl applyAttr s = s + (l.map attrDelta).sum := by
  induction l generalizing s with
  | nil => simp
  | cons a t ih => simp [List.foldl_cons, applyAttr_eq_add, ih, add_assoc]

/-- The score is the clamped sum of the base score and all contributions. -/
theorem calculate_threat_level_eq (category : String) (l : List AnomalyAttributeIn) :
    calculate_threat_level category l =
      max 0 (min ((BASE_SCORES category).getD 10 + (l.map attrDelta).sum) 100) := by
  unfold calculate_threat_level
  rw [foldl_applyAttr]

/-! ## Lemmas about decimal strings -/

/-- What every character of a decimal digit run satisfies. -/
def isDecDigitChar (c : Char) : Prop :=
  c.isDigit = true ∧ isPyWs c = false ∧ c ≠ '-' ∧ c ≠ '+'

instance : DecidablePred isDecDigitChar := fun c => by
  unfold isDecDigitChar
  infer_instance

theorem digitChar_props (m : Nat) (h : m < 10) : isDecDigitChar (Char.ofNat (48 + m)) := by
  interval_cases m <;> exact (by decide)

theorem natDecCharsAux_mem (fuel : Nat) :
    ∀ n, ∀ c ∈ natDecCharsAux fuel n, isDecDigitChar c := by
  induction fuel with
  | zero => intro n c hc; simp [natDecCharsAux] at hc
  | succ fuel ih =>
    intro n c hc
    unfold natDecCharsAux at hc
    by_cases h : n < 10
    · simp only [h, if_true, List.mem_singleton] at hc
      exact hc ▸ digitChar_props n h
    · simp only [h, if_false, List.mem_append, List.mem_singleton] at hc
      rcases hc with hc | hc
      · exact ih (n / 10) c hc
      · exact hc ▸ digitChar_props (n % 10) (Nat.mod_lt _ (by omega))

theorem natDecChars_mem (n : Nat) : ∀ c ∈ natDecChars n, isDecDigitChar c :=
  natDecCharsAux_mem (n + 1) n

theorem natDecCharsAux_ne_nil (fuel n : Nat) (h : n < fuel) :
    natDecCharsAux fuel n ≠ [] := by
  cases fuel with
  | zero => omega
  | succ fuel =>
    unfold natDecCharsAux
    by_cases h10 : n < 10 <;> simp [h10]

theorem pyGo_digits (l : List Char) (h : ∀ c ∈ l, c.isDigit = true) (acc : Nat) :
    pyGo acc l = some (l.foldl (fun a c => a * 10 + (c.toNat - 48)) acc) := by
  induction l generalizing acc with
  | nil => rfl
  | cons c t ih =>
    have hc : c.isDigit = true := h c (by simp)
    have step : pyGo acc (c :: t) = pyGo (acc * 10 + (c.toNat - 48)) t := by
      conv_lhs => rw [pyGo.eq_def]
      simp [hc]
    rw [step, List.foldl_cons]
    exact ih (fun x hx => h x (by simp [hx])) _

theorem digitChar_toNat (m : Nat) (h : m < 10) : (Char.ofNat (48 + m)).toNat - 48 = m := by
  interval_cases m <;> decide

theorem foldl_natDecCharsAux (fuel : Nat) :
    ∀ n acc, n < fuel →
      (natDecCharsAux fuel n).foldl (fun a c => a * 10 + (c.toNat - 48)) acc
        = acc * 10 ^ (natDecCharsAux fuel n).length + n := by
  induction fuel with
  | zero => intro n acc h; omega
  | succ fuel ih =>
    intro n acc h
    unfold natDecCharsAux
    by_cases h10 : n < 10
    · simp [h10, digitChar_toNat n h10]
    · have hdiv : n / 10 < fuel := by omega
      simp only [h10, if_false, List.foldl_append, List.foldl_cons, List.foldl_nil,
        List.length_append, List.length_singleton]
      rw [ih (n / 10) acc hdiv, digitChar_toNat (n % 10) (Nat.mod_lt _ (by omega))]
      rw [pow_succ]
      have := Nat.div_add_mod n 10
      generalize (10 : Nat) ^ (natDecCharsAux fuel (n / 10)).length = P
      ring_nf
      omega

theorem natDecChars_ne_nil (n : Nat) : natDecChars n ≠ [] :=
  natDecCharsAux_ne_nil (n + 1) n (by omega)

theorem foldl_natDecChars (n acc : Nat) :
    (natDecChars n).foldl (fun a c => a * 10 + (c.toNat - 48)) acc
      = acc * 10 ^ (natDecChars n).length + n :=
  foldl_natDecCharsAux (n + 1) n acc (by omega)

theorem pyDigits_natDecChars (n : Nat) : pyDigits (natDecChars n) = some n := by
  obtain ⟨c, t, e⟩ := List.exists_cons_of_ne_nil (natDecChars_ne_nil n)
  have hdig : ∀ x ∈ natDecChars n, x.isDigit = true := fun x hx => (natDecChars_mem n x hx).1
  have hfold := foldl_natDecChars n 0
  rw [e] at hdig hfold ⊢
  have hc : c.isDigit = true := hdig c (by simp)
  simp only [pyDigits, hc, if_true]
  rw [pyGo_digits _ hdig 0]
  simp only [hfold, Nat.zero_mul, Nat.zero_add]

theorem toList_mk (l : List Char) : (String.mk l).toList = l := rfl

theorem pyStrip_of_no_ws (l : List Char) (h : ∀ c ∈ l, isPyWs c = false) :
    pyStrip l = l := by
  unfold pyStrip
  have h1 : l.dropWhile isPyWs = l := by
    cases l with
    | nil => rfl
    | cons c t => simp [List.dropWhile_cons, h c (by simp)]
  rw [h1]
  have h2 : l.reverse.dropWhile isPyWs = l.reverse := by
    cases hr : l.reverse with
    | nil => rfl
    | cons c t =>
      have hc : c ∈ l := by
        have hm : c ∈ l.reverse := by rw [hr]; simp
        simpa using hm
      simp [List.dropWhile_cons, h c hc]
  rw [h2, List.reverse_reverse]

theorem natDecChars_no_ws (n : Nat) : ∀ c ∈ natDecChars n, isPyWs c = false :=
  fun c hc => (natDecChars_mem n c hc).2.1

/-- Round trip: `int(str(v))` recovers `v` for every integer `v`. -/
theorem pyInt_decStr (v : Int) : pyInt (decStr v) = some v := by
  by_cases hv : v < 0
  · have hstr : decStr v = String.mk ('-' :: natDecChars v.natAbs) := by
      unfold decStr
      simp [hv]
    have hws : ∀ c ∈ '-' :: natDecChars v.natAbs, isPyWs c = false := by
      intro c hc
      rcases List.mem_cons.mp hc with h | h
      · subst h; decide
      · exact natDecChars_no_ws v.natAbs c h
    unfold pyInt
    rw [hstr, toList_mk, pyStrip_of_no_ws _ hws]
    simp only [List.head?_cons, List.tail_cons, Option.some.injEq, pyDigits_natDecChars]
    have habs : ((v.natAbs : Int)) = -v := Int.ofNat_natAbs_of_nonpos (by omega)
    simp [habs]
  · have hstr : decStr v = String.mk (natDecChars v.natAbs) := by
      unfold decStr
      simp [hv]
    unfold pyInt
    rw [hstr, toList_mk, pyStrip_of_no_ws _ (natDecChars_no_ws v.natAbs)]
    obtain ⟨c, t, e⟩ := List.exists_cons_of_ne_nil (natDecChars_ne_nil v.natAbs)
    have hprops : isDecDigitChar c := natDecChars_mem v.natAbs c (by rw [e]; simp)
    rw [e]
    simp only [List.head?_cons, Option.some.injEq, hprops.2.2.1, hprops.2.2.2, if_false]
    rw [← e, pyDigits_natDecChars]
    have habs : ((v.natAbs : Int)) = v := Int.natAbs_of_nonneg (by omega)
    simp [habs]

theorem getD_mem_of_lt (l : List Char) (i : Nat) (d : Char) (h : i < l.length) :
    l.getD i d ∈ l := by
  induction l generalizing i with
  | nil => simp at h
  | cons c t ih =>
    cases i with
    | zero => simp
    | succ i =>
      simp only [List.getD_cons_succ]
      exact List.mem_cons_of_mem _ (ih i (by simpa using h))

/-- A `str(uuid4())`-shaped id never equals the decimal text of an integer:
the uuid has a hyphen at index 8, a decimal string has a digit there (its only
possible hyphen is at index 0). -/
theorem uuidFormat_ne_decStr (s : String) (hs : uuidFormat s = true) (v : Int) :
    s ≠ decStr v := by
  intro he
  rw [he] at hs
  unfold uuidFormat at hs
  simp only [Bool.and_eq_true, beq_iff_eq, List.all_eq_true] at hs
  obtain ⟨hlen, hall⟩ := hs
  have h8 : (decStr v).toList.getD 8 'x' = '-' := by simpa using hall 8 (by decide)
  have hlen36 : (decStr v).toList.length = 36 := hlen
  by_cases hv : v < 0
  · have hstr : decStr v = String.mk ('-' :: natDecChars v.natAbs) := by
      unfold decStr
      simp [hv]
    rw [hstr] at h8 hlen36
    have h8b : (natDecChars v.natAbs).getD 7 'x' = '-' := h8
    have hlenb : ('-' :: natDecChars v.natAbs).length = 36 := hlen36
    simp only [List.length_cons] at hlenb
    have hmem : (natDecChars v.natAbs).getD 7 'x' ∈ natDecChars v.natAbs :=
      getD_mem_of_lt _ 7 'x' (by omega)
    exact (natDecChars_mem v.natAbs _ hmem).2.2.1 h8b
  · have hstr : decStr v = String.mk (natDecChars v.natAbs) := by
      unfold decStr
      simp [hv]
    rw [hstr] at h8 hlen36
    have h8b : (natDecChars v.natAbs).getD 8 'x' = '-' := h8
    have hlenb : (natDecChars v.natAbs).length = 36 := hlen36
    have hmem : (natDecChars v.natAbs).getD 8 'x' ∈ natDecChars v.natAbs :=
      getD_mem_of_lt _ 8 'x' (by omega)
    exact (natDecChars_mem v.natAbs _ hmem).2.2.1 h8b

/-! ## Concrete inputs shared by the claim theorems -/

/-- The attribute list of the ingest property, exactly as stated (ASCII
values). -/
def c1Attrs : List AnomalyAttributeIn :=
  [⟨"puvod", "Slovansky"⟩, ⟨"entita", "Vodnik"⟩, ⟨"agresivita", "3"⟩,
   ⟨"agresivita_odhad", "vysoka"⟩]

/-- The same list with the diacritic spelling that the verbal adjustment
table actually holds. -/
def c1AttrsDiacritic : List AnomalyAttributeIn :=
  [⟨"puvod", "Slovansky"⟩, ⟨"entita", "Vodnik"⟩, ⟨"agresivita", "3"⟩,
   ⟨"agresivita_odhad", "vysoká"⟩]

/-- The ingest payload of the claim: the base-50 category with the four
attributes. -/
def c1Payload : AnomalyIn :=
  { category := "Elementál", location := "Černé jezero, Šumava", detected_at := 0,
    attributes := c1Attrs }

/-- Store for the list-filter witness: one row with empty-string category and
negative threat, one ordinary row. -/
def c10Rows : List Anomaly :=
  [⟨"1", "", "loc", 0, -5, false⟩, ⟨"2", "A", "loc", 0, 0, false⟩]

/-! ## The claims -/

/-- C1, counterexample to the claim as stated: at the claim's exact payload
the ingest workflow does not produce any record — the `Anomaly.id` column
default raises `NameError` because `models/anomaly.py` never imports `uuid4`
— and the scoring function gives the stated attribute list 56, not 76,
because the ASCII value `"vysoka"` is not a key of the verbal table. -/
theorem C1_ingest_counterexample :
    ingest_anomaly ⟨[], []⟩ (fun _ => "550e8400-e29b-41d4-a716-446655440000") c1Payload
      = .error (.nameError "uuid4") ∧
    calculate_threat_level c1Payload.category c1Payload.attributes ≠ 76 ∧
    calculate_threat_level c1Payload.category c1Payload.attributes = 56 := by
  exact ⟨by decide, by decide, by decide⟩

/-- C1, amended: ingesting the claim's payload fails for every store and
every uuid supply with `NameError` on the unbound name `uuid4`, so nothing is
persisted or returned; the scoring step would give the stated ASCII attribute
list threat level 56 (the verbal table holds `"vysoká"`, not `"vysoka"`),
and gives the diacritic spelling the claim's 76 over the base-50 category. -/
theorem C1_ingest_amended (store : Store) (fresh : Nat → String) :
    ingest_anomaly store fresh c1Payload = .error (.nameError "uuid4") ∧
    BASE_SCORES "Elementál" = some 50 ∧
    calculate_threat_level c1Payload.category c1Payload.attributes = 56 ∧
    calculate_threat_level c1Payload.category c1AttrsDiacritic = 76 := by
  refine ⟨?_, by decide, by decide, by decide⟩
  have hc : "uuid4" ∉ anomalyModelGlobals := by decide
  simp [ingest_anomaly, anomalyIdDefault, hc, Bind.bind, Except.bind]

/-- C2, counterexample to the claim as stated: an existing anomaly that is
already resolved answers the first of the two calls with "already resolved",
not with "marked as resolved". -/
theorem C2_resolve_counterexample :
    (resolve_anomaly [⟨"7", "Elementál", "Šumava", 0, 50, true⟩] 7).2
      = .message "Anomaly already resolved" ∧
    (resolve_anomaly [⟨"7", "Elementál", "Šumava", 0, 50, true⟩] 7).2
      ≠ .message "Anomaly marked as resolved" := by
  exact ⟨by decide, by decide⟩

/-- C2, amended: the claimed false-to-true transition is unreachable in the
code as written.  For every existing anomaly: if it is already resolved, both
calls return "already resolved" before any transaction and change nothing; if
it is not yet resolved, `session.get` has already autobegun a transaction, so
the endpoint's `session.begin()` raises `InvalidRequestError` (a
`SQLAlchemyError`), both calls surface the generic storage-failure (HTTP 500)
result, nothing is written, and `is_resolved` is never persisted. -/
theorem C2_resolve_never_transitions (rows : List Anomaly) (anomaly_id : Int) (a : Anomaly)
    (hfind : sessionGetAnomaly rows (decStr anomaly_id) = some a) :
    (a.is_resolved = true →
      resolve_anomaly rows anomaly_id = (rows, .message "Anomaly already resolved") ∧
      resolve_anomaly (resolve_anomaly rows anomaly_id).1 anomaly_id
        = (rows, .message "Anomaly already resolved")) ∧
    (a.is_resolved = false →
      resolve_anomaly rows anomaly_id = (rows, .storageFailure) ∧
      resolve_anomaly (resolve_anomaly rows anomaly_id).1 anomaly_id
        = (rows, .storageFailure)) := by
  constructor
  · intro hres
    have h1 : resolve_anomaly rows anomaly_id = (rows, .message "Anomaly already resolved") := by
      unfold resolve_anomaly
      rw [hfind]
      simp [hres]
    exact ⟨h1, by rw [h1]; exact h1⟩
  · intro hunres
    have h1 : resolve_anomaly rows anomaly_id = (rows, .storageFailure) := by
      unfold resolve_anomaly
      rw [hfind]
      simp [hunres, sessionBegin]
    exact ⟨h1, by rw [h1]; exact h1⟩

/-- Witness for C2: both cases on concrete one-row stores — an already
resolved anomaly under the decimal id "7" answers "already resolved" with no
write, and an unresolved one under "9" answers with the storage failure and
no write. -/
theorem C2_resolve_never_transitions_witness :
    resolve_anomaly [⟨"7", "Elementál", "Šumava", 0, 50, true⟩] 7
      = ([⟨"7", "Elementál", "Šumava", 0, 50, true⟩], .message "Anomaly already resolved") ∧
    resolve_anomaly [⟨"9", "Elementál", "Šumava", 0, 50, false⟩] 9
      = ([⟨"9", "Elementál", "Šumava", 0, 50, false⟩], .storageFailure) := by
  have h1 := C2_resolve_never_transitions [⟨"7", "Elementál", "Šumava", 0, 50, true⟩] 7
    ⟨"7", "Elementál", "Šumava", 0, 50, true⟩ (by decide)
  have h2 := C2_resolve_never_transitions [⟨"9", "Elementál", "Šumava", 0, 50, false⟩] 9
    ⟨"9", "Elementál", "Šumava", 0, 50, false⟩ (by decide)
  exact ⟨(h1.1 (by decide)).1, (h2.2 (by decide)).1⟩

/-- C3: for every category string and every attribute list, the computed
threat level lies in [0, 100]. -/
theorem C3_score_bounded (category : String) (attributes : List AnomalyAttributeIn) :
    0 ≤ calculate_threat_level category attributes ∧
    calculate_threat_level category attributes ≤ 100 := by
  unfold calculate_threat_level
  exact ⟨le_max_left 0 _, max_le (by norm_num) (min_le_right _ 100)⟩

/-- C4: scoring any category with the single attribute
`("agresivita", str(v))` gives `clamp(base + 2 * v, 0, 100)`, where the base
score is the table entry and 10 for categories outside the table. -/
theorem C4_score_agresivita_linear (cat : String) (v : Int) :
    calculate_threat_level cat [⟨"agresivita", decStr v⟩]
      = max 0 (min ((BASE_SCORES cat).getD 10 + 2 * v) 100) := by
  rw [calculate_threat_level_eq]
  have hdelta : attrDelta ⟨"agresivita", decStr v⟩ = v * 2 := by
    unfold attrDelta
    simp [pyInt_decStr v]
  simp [hdelta, mul_comm]

/-- C5: an `agresivita` attribute whose value does not parse as an integer
contributes nothing — the score equals that of the same list with the
attribute removed — and the computation is total, never an error. -/
theorem C5_score_parse_failure_skipped (cat : String)
    (pre post : List AnomalyAttributeIn) (value : String)
    (hbad : pyInt value = none) :
    calculate_threat_level cat (pre ++ ⟨"agresivita", value⟩ :: post)
      = calculate_threat_level cat (pre ++ post) := by
  rw [calculate_threat_level_eq, calculate_threat_level_eq]
  have hdelta : attrDelta ⟨"agresivita", value⟩ = 0 := by
    unfold attrDelta
    simp [hbad]
  simp [hdelta]

/-- Witness for C5: the spec's `"not-a-number"` value is skipped. -/
theorem C5_score_parse_failure_witness :
    pyInt "not-a-number" = none ∧
    calculate_threat_level "Přízrak"
        ([⟨"entita", "Vodnik"⟩] ++ ⟨"agresivita", "not-a-number"⟩ :: [⟨"agresivita", "4"⟩])
      = calculate_threat_level "Přízrak" ([⟨"entita", "Vodnik"⟩] ++ [⟨"agresivita", "4"⟩]) :=
  ⟨by decide, C5_score_parse_failure_skipped "Přízrak" _ _ _ (by decide)⟩

/-- C6: the verbal `agresivita_odhad` value is matched through `str.lower`
against the fixed table, so the upper-case spelling of the "high" value adds
20 before clamping, and a value whose lowering is outside the table adds 0. -/
theorem C6_score_odhad_case_insensitive (cat v : String) :
    calculate_threat_level cat [⟨"agresivita_odhad", "VYSOKÁ"⟩]
      = max 0 (min ((BASE_SCORES cat).getD 10 + 20) 100) ∧
    (WEIGHT_agresivita_odhad (pyLower v) = none →
      calculate_threat_level cat [⟨"agresivita_odhad", v⟩]
        = max 0 (min ((BASE_SCORES cat).getD 10) 100)) := by
  constructor
  · rw [calculate_threat_level_eq]
    have hdelta : attrDelta ⟨"agresivita_odhad", "VYSOKÁ"⟩ = 20 := by decide
    simp [hdelta]
  · intro hnone
    rw [calculate_threat_level_eq]
    have hdelta : attrDelta ⟨"agresivita_odhad", v⟩ = 0 := by
      unfold attrDelta
      simp [hnone]
    simp [hdelta]

/-- Witness for C6: a value outside the table contributes nothing to the
base-30 category, and the upper-case high value yields 50 there. -/
theorem C6_score_odhad_witness :
    WEIGHT_agresivita_odhad (pyLower "extrémní") = none ∧
    calculate_threat_level "Přízrak" [⟨"agresivita_odhad", "VYSOKÁ"⟩] = 50 ∧
    calculate_threat_level "Přízrak" [⟨"agresivita_odhad", "extrémní"⟩] = 30 := by
  obtain ⟨h1, h2⟩ := C6_score_odhad_case_insensitive "Přízrak" "extrémní"
  refine ⟨by decide, ?_, ?_⟩
  · rw [h1]; decide
  · rw [h2 (by decide)]; decide

/-- C7: the score is a function of the multiset of attributes — any
permutation of the attribute list yields the same score. -/
theorem C7_score_perm_invariant (cat : String) (l1 l2 : List AnomalyAttributeIn)
    (hperm : l1.Perm l2) :
    calculate_threat_level cat l1 = calculate_threat_level cat l2 := by
  rw [calculate_threat_level_eq, calculate_threat_level_eq,
    List.Perm.sum_eq (hperm.map attrDelta)]

/-- Witness for C7: swapping the two adjustment attributes leaves the score
at 64. -/
theorem C7_score_perm_witness :
    calculate_threat_level "Měňavec"
        [⟨"agresivita", "2"⟩, ⟨"agresivita_odhad", "nízká"⟩]
      = calculate_threat_level "Měňavec"
        [⟨"agresivita_odhad", "nízká"⟩, ⟨"agresivita", "2"⟩] ∧
    calculate_threat_level "Měňavec"
        [⟨"agresivita", "2"⟩, ⟨"agresivita_odhad", "nízká"⟩] = 64 :=
  ⟨C7_score_perm_invariant "Měňavec" _ _ (List.Perm.swap _ _ _), by decide⟩

/-- C8: the summary of an empty store is all zeroes with both optional
aggregates absent, and whenever no unresolved anomaly exists the average
threat level is `none` rather than a division error. -/
theorem C8_summary_empty_no_unresolved (rows : List Anomaly)
    (hall : ∀ a ∈ rows, a.is_resolved = true) :
    anomaly_summary [] = ⟨0, 0, none, none⟩ ∧
    (anomaly_summary rows).avg_threat_level = none := by
  refine ⟨by decide, ?_⟩
  unfold anomaly_summary sqlAvgThreatUnresolved
  have hfilter : rows.filter (fun a => !a.is_resolved) = [] := by
    rw [List.filter_eq_nil_iff]
    intro a ha
    simp [hall a ha]
  simp [hfilter]

/-- Witness for C8: a store holding one resolved anomaly. -/
theorem C8_summary_witness :
    anomaly_summary [] = ⟨0, 0, none, none⟩ ∧
    (anomaly_summary [⟨"1", "Elementál", "x", 0, 40, true⟩]).avg_threat_level = none :=
  C8_summary_empty_no_unresolved [⟨"1", "Elementál", "x", 0, 40, true⟩] (by decide)

/-- C9: on any store whose ids all have the `str(uuid4())` shape — as every
row created by the ingest workflow does — the integer-typed resolve lookup
matches nothing, so every resolve call returns the not-found result and
leaves the store unchanged. -/
theorem C9_resolve_int_id_never_matches (rows : List Anomaly)
    (hids : ∀ a ∈ rows, uuidFormat a.id = true) (anomaly_id : Int) :
    resolve_anomaly rows anomaly_id = (rows, .notFound) := by
  have hnone : sessionGetAnomaly rows (decStr anomaly_id) = none := by
    unfold sessionGetAnomaly
    rw [List.find?_eq_none]
    intro a ha
    simp only [beq_iff_eq]
    exact uuidFormat_ne_decStr a.id (hids a ha) anomaly_id
  unfold resolve_anomaly
  rw [hnone]

/-- Witness for C9: a uuid-keyed row is not found under the integer id 550. -/
theorem C9_resolve_witness :
    resolve_anomaly
        [⟨"550e8400-e29b-41d4-a716-446655440000", "Elementál", "x", 0, 50, false⟩] 550
      = ([⟨"550e8400-e29b-41d4-a716-446655440000", "Elementál", "x", 0, 50, false⟩],
         .notFound) :=
  C9_resolve_int_id_never_matches _ (by decide) 550

/-- C10: the empty-string category filter is truthiness-disabled and equals
no filter at all; an active category filter only ever returns rows of that
non-empty category (so an empty-category row is never selected by it); and
the min-threat filter is applied whenever present, including at 0. -/
theorem C10_list_truthiness_filters (rows : List Anomaly) (mt : Option Int)
    (c : String) (copt : Option String) (m : Int) :
    list_anomalies rows ⟨some "", mt⟩ = list_anomalies rows ⟨none, mt⟩ ∧
    (c ≠ "" → ∀ a ∈ list_anomalies rows ⟨some c, mt⟩, a.category = c) ∧
    list_anomalies rows ⟨copt, some m⟩
      = (list_anomalies rows ⟨copt, none⟩).filter
          (fun a => decide (m ≤ a.threat_level)) := by
  refine ⟨?_, ?_, ?_⟩
  · simp [list_anomalies, pyTruthyStr]
  · intro hc a ha
    have hc2 : (c == "") = false := beq_eq_false_iff_ne.mpr hc
    cases mt with
    | none =>
      simp [list_anomalies, pyTruthyStr, hc2, List.mem_filter] at ha
      exact ha.2
    | some m2 =>
      simp [list_anomalies, pyTruthyStr, hc2, List.mem_filter] at ha
      exact ha.2.2
  · cases copt <;> simp [list_anomalies, pyTruthyStr]

/-- Witness for C10: the two-row store with an empty-string category and a
zero threat level. -/
theorem C10_list_witness :
    list_anomalies c10Rows ⟨some "", some 0⟩ = list_anomalies c10Rows ⟨none, some 0⟩ ∧
    (⟨"2", "A", "loc", 0, 0, false⟩ : Anomaly).category = "A" ∧
    list_anomalies c10Rows ⟨none, some 0⟩
      = (list_anomalies c10Rows ⟨none, none⟩).filter
          (fun a => decide ((0 : Int) ≤ a.threat_level)) := by
  obtain ⟨h1, h2, h3⟩ := C10_list_truthiness_filters c10Rows (some 0) "A" none 0
  exact ⟨h1, h2 (by decide) ⟨"2", "A", "loc", 0, 0, false⟩ (by decide), h3⟩
